import Mathlib

/-!
Verification development for the KeyVault recovery system.

The definitions below are shallow embeddings of the program's source:
* `GF256.*`, `polyEval`, `splitSecret`, `reconstructSecret`, `shareToJson`,
  `shareFromParsed` embed `src/utils/shamirSecretSharing.ts`;
* `configureShamir`, `submitShare` embed `src/contracts/ShamirRecovery.sol`;
* `configureSocialRecovery`, `addGuardian`, `removeGuardian`,
  `voteRecovery`, `executeRecovery`, `rejectRecovery` embed
  `src/contracts/SocialRecovery.sol`;
* `selectOptimalProviders`, `storeWithRedundancy` embed the
  `useKeyVaultStorage` hook.

Bytes and machine words are modelled as `Nat` (Solidity 0.8 checked
arithmetic is modelled by explicit overflow guards where a bounded type
could wrap); fallible operations return `Except String`; JS exceptions are
`Except.error`; the `crypto.randomBytes` source is modelled as an oracle
indexed by the call site; EVM revert semantics are modelled by the error
branch returning no state.
-/

namespace KeyVault

/-- GF(256) carry-less multiplication loop of `GF256.multiplyPrimitive`:
shift-and-xor with reduction by the irreducible polynomial 0x11b. The
first argument is structural fuel; the loop itself ends when `b = 0`, and
since `b` at least halves each iteration while the fuel only drops by one,
starting the fuel at `b` never exhausts it (see `mpAux_fuel`). -/
def mpAux : Nat → Nat → Nat → Nat → Nat
  | 0, _, _, result => result
  | fuel + 1, a, b, result =>
    if b = 0 then result
    else
      let result := if b % 2 = 1 then result ^^^ a else result
      let a := a * 2
      let a := if a &&& 0x100 ≠ 0 then a ^^^ 0x11b else a
      mpAux fuel a (b / 2) result

namespace GF256

/-- `GF256.multiplyPrimitive` from `shamirSecretSharing.ts`. -/
def multiplyPrimitive (a b : Nat) : Nat :=
  if a = 0 || b = 0 then 0 else mpAux b a b 0

/-- The exponential table `EXP_TABLE`: entry `i` is the value of `x` after
`i` iterations of the generating loop (`x` starts at 1 and is multiplied by
the generator 3 each iteration). Only indices `0..254` are ever read by the
arithmetic operations, since every index is reduced `% 255` first. -/
def expT : Nat → Nat
  | 0 => 1
  | n + 1 => multiplyPrimitive (expT n) 3

/-- The logarithm table `LOG_TABLE`: `LOG_TABLE[x] = i` exactly when
`EXP_TABLE[i] = x` during table generation (`i < 255`). -/
def logT (y : Nat) : Nat :=
  (((List.range 255).find? (fun i => expT i == y)).getD 0)

/-- `GF256.add`. -/
def add (a b : Nat) : Nat := a ^^^ b

/-- `GF256.multiply`. -/
def multiply (a b : Nat) : Nat :=
  if a = 0 || b = 0 then 0 else expT ((logT a + logT b) % 255)

/-- `GF256.divide`; the JS `throw` is an `Except.error`. The source checks
`a === 0` before `b === 0`. The JS index expression
`(LOG[a] - LOG[b] + 255) % 255` is computed on integers; since both logs
are `< 255` it equals `(LOG[a] + 255 - LOG[b]) % 255` on `Nat`. -/
def divide (a b : Nat) : Except String Nat :=
  if a = 0 then .ok 0
  else if b = 0 then .error "Division by zero in GF(256)"
  else .ok (expT ((logT a + 255 - logT b) % 255))

/-- `GF256.power`. -/
def power (base e : Nat) : Nat :=
  if base = 0 then 0 else expT ((logT base * e) % 255)

end GF256

/-- `Polynomial.evaluate` from `shamirSecretSharing.ts`: accumulates
`result ⊕= coeff * xPower` with `xPower *= x` per coefficient. -/
def polyEval (coefficients : List Nat) (x : Nat) : Nat :=
  (coefficients.foldl
    (fun acc coeff => (GF256.add acc.1 (GF256.multiply coeff acc.2),
                       GF256.multiply acc.2 x))
    ((0 : Nat), (1 : Nat))).1

/-- The `ShamirShare` interface; `y` (a `Uint8Array`) is a byte list. -/
structure ShamirShare where
  x : Nat
  y : List Nat
  threshold : Nat
  totalShares : Nat
  keyId : String
  timestamp : Nat
deriving DecidableEq, Repr

/-- `ShamirSecretSharing.splitSecret`. The `generateRandomByte()` calls are
modelled by the oracle `rand shareIndex byteIndex i`, one independent byte
per call site: the source generates a fresh batch of `threshold - 1` random
coefficients inside the loop body for each `(shareIndex, byteIndex)` pair. -/
def splitSecret (secret : List Nat) (threshold totalShares : Nat)
    (keyId : String) (rand : Nat → Nat → Nat → Nat) (timestamp : Nat) :
    Except String (List ShamirShare) :=
  if threshold < 2 ∨ totalShares < threshold then
    .error "Invalid threshold: must be 2 <= threshold <= totalShares"
  else if 255 < totalShares then
    .error "Total shares cannot exceed 255"
  else if secret.length = 0 then
    .error "Secret cannot be empty"
  else
    .ok ((List.range totalShares).map (fun s0 =>
      let shareIndex := s0 + 1
      { x := shareIndex
        y := (List.range secret.length).map (fun byteIndex =>
          let coefficients :=
            secret.getD byteIndex 0 ::
              (List.range (threshold - 1)).map (fun i => rand shareIndex byteIndex (i + 1))
          polyEval coefficients shareIndex)
        threshold := threshold
        totalShares := totalShares
        keyId := keyId
        timestamp := timestamp }))

/-- `ShamirSecretSharing.lagrangeInterpolate`: Lagrange interpolation at
`x`; the inner loops skip index `j = i` (indices, not values, hence the
`enum`). The division can throw, which propagates out of the loop. -/
def lagrangeInterpolate (points : List (Nat × Nat)) (x : Nat) :
    Except String Nat :=
  let ps := points.enum
  ps.foldlM
    (fun result ip =>
      let numerator := ps.foldl
        (fun acc jq => if ip.1 ≠ jq.1 then GF256.multiply acc (GF256.add x jq.2.1) else acc) 1
      let denominator := ps.foldl
        (fun acc jq => if ip.1 ≠ jq.1 then GF256.multiply acc (GF256.add ip.2.1 jq.2.1) else acc) 1
      (GF256.divide numerator denominator).map
        (fun lagrangeBasis => GF256.add result (GF256.multiply ip.2.2 lagrangeBasis)))
    0

/-- `ShamirSecretSharing.reconstructSecret`. The per-share validation loop
reports the first violated condition (keyId, then length, then threshold)
of the first offending share; only the first `threshold` shares are used. -/
def reconstructSecret (shares : List ShamirShare) :
    Except String (List Nat) :=
  match shares with
  | [] => .error "No shares provided"
  | firstShare :: _ =>
    let threshold := firstShare.threshold
    let secretLength := firstShare.y.length
    let keyId := firstShare.keyId
    if shares.length < threshold then
      .error "Insufficient shares"
    else
      match shares.findSome? (fun share =>
        if share.keyId ≠ keyId then some "Shares are for different keys"
        else if share.y.length ≠ secretLength then some "Shares have different lengths"
        else if share.threshold ≠ threshold then some "Shares have different thresholds"
        else none) with
      | some msg => .error msg
      | none =>
        let requiredShares := shares.take threshold
        (List.range secretLength).mapM (fun byteIndex =>
          lagrangeInterpolate
            (requiredShares.map (fun share => (share.x, share.y.getD byteIndex 0))) 0)

/-- `ShamirConfig` struct of `ShamirRecovery.sol`. -/
structure ShamirConfigC where
  threshold : Nat
  totalShares : Nat
  createdAt : Nat
  isInitialized : Bool
deriving DecidableEq, Repr

/-- `ShamirRecovery.configureShamir` acting on the caller's existing
config slot (`shamirConfigs[owner]`); `require` failures revert. -/
def configureShamir (existing : ShamirConfigC) (threshold totalShares now : Nat) :
    Except String ShamirConfigC :=
  if ¬ (0 < threshold ∧ threshold ≤ totalShares) then
    .error "ShamirRecovery: invalid threshold"
  else if ¬ (2 ≤ totalShares ∧ totalShares ≤ 255) then
    .error "ShamirRecovery: invalid total shares"
  else if existing.isInitialized then
    .error "ShamirRecovery: already configured"
  else
    .ok { threshold := threshold, totalShares := totalShares,
          createdAt := now, isInitialized := true }

/-- `ShareInfo` struct of `ShamirRecovery.sol`; addresses and hashes are
modelled as `Nat`. -/
structure ShareInfo where
  shareIndex : Nat
  storageCid : String
  storageProvider : Nat
  shareHash : Nat
  timestamp : Nat
  isActive : Bool

/-- `RecoveryAttempt` struct of `ShamirRecovery.sol`; the
`mapping(uint256 => bytes)` is a total function defaulting to empty
bytes. -/
structure RecoveryAttempt where
  initiator : Nat
  submittedShares : Nat
  requiredShares : Nat
  deadline : Nat
  isComplete : Bool
  submittedShareData : Nat → List Nat

/-- `ShamirRecovery.submitShare` for a fixed owner and recovery id:
`hash` models `keccak256`, `shares` the owner's `shares` mapping, `now`
is `block.timestamp`. A violated `require` reverts (error, no new state). -/
def submitShare (hash : List Nat → Nat) (shares : Nat → ShareInfo)
    (attempt : RecoveryAttempt) (now shareIndex : Nat) (shareData : List Nat) :
    Except String RecoveryAttempt :=
  if ¬ (now < attempt.deadline) then .error "ShamirRecovery: recovery expired"
  else if attempt.isComplete then .error "ShamirRecovery: recovery already complete"
  else if ¬ (shares shareIndex).isActive then .error "ShamirRecovery: share not active"
  else if hash shareData ≠ (shares shareIndex).shareHash then .error "ShamirRecovery: invalid share"
  else
    let attempt1 : RecoveryAttempt :=
      { attempt with
        submittedShareData := fun i => if i = shareIndex then shareData else attempt.submittedShareData i
        submittedShares := attempt.submittedShares + 1 }
    if attempt1.requiredShares ≤ attempt1.submittedShares then
      .ok { attempt1 with isComplete := true }
    else
      .ok attempt1

/-- `SocialConfig` struct of `SocialRecovery.sol`. -/
structure SocialConfig where
  requiredApprovals : Nat
  totalGuardians : Nat
  recoveryDelay : Nat
  isInitialized : Bool
deriving DecidableEq, Repr

/-- `Guardian` struct of `SocialRecovery.sol`. -/
structure Guardian where
  guardianAddress : Nat
  encryptedShare : String
  storageCid : String
  isActive : Bool
  addedAt : Nat

/-- Per-owner slice of the `SocialRecovery` storage: the owner's config,
the `guardians` index mapping (defaulting to the zero struct) and the
`isGuardian` address mapping. -/
structure SocialState where
  config : SocialConfig
  guardians : Nat → Guardian
  isGuardianMap : Nat → Bool

/-- `RecoveryProposal` struct of `SocialRecovery.sol`. -/
structure RecoveryProposal where
  proposer : Nat
  newOwner : Nat
  votesFor : Nat
  votesAgainst : Nat
  deadline : Nat
  isExecuted : Bool
  isActive : Bool
  hasVotedMap : Nat → Bool
  voteChoice : Nat → Bool

/-- `SocialRecovery.configureSocialRecovery` on the owner's state. -/
def configureSocialRecovery (st : SocialState) (requiredApprovals recoveryDelay : Nat) :
    Except String SocialState :=
  if ¬ (0 < requiredApprovals) then .error "SocialRecovery: invalid required approvals"
  else if recoveryDelay < 3600 then .error "SocialRecovery: recovery delay too short"
  else if st.config.isInitialized then .error "SocialRecovery: already configured"
  else
    .ok { st with config := { requiredApprovals := requiredApprovals, totalGuardians := 0,
                              recoveryDelay := recoveryDelay, isInitialized := true } }

/-- `SocialRecovery.addGuardian`. `totalGuardians` is a `uint8` under
Solidity 0.8 checked arithmetic, so the `++` reverts at 255. -/
def addGuardian (st : SocialState) (owner guardianAddress : Nat)
    (encryptedShare storageCid : String) (now : Nat) : Except String SocialState :=
  if ¬ st.config.isInitialized then .error "SocialRecovery: not configured"
  else if guardianAddress = 0 then .error "SocialRecovery: invalid guardian address"
  else if guardianAddress = owner then .error "SocialRecovery: cannot be own guardian"
  else if st.isGuardianMap guardianAddress then .error "SocialRecovery: guardian already exists"
  else if encryptedShare.length = 0 then .error "SocialRecovery: empty encrypted share"
  else if st.config.totalGuardians = 255 then .error "SocialRecovery: arithmetic overflow"
  else
    let guardianIndex := st.config.totalGuardians
    .ok { config := { st.config with totalGuardians := st.config.totalGuardians + 1 }
          guardians := fun i => if i = guardianIndex then
              { guardianAddress := guardianAddress, encryptedShare := encryptedShare,
                storageCid := storageCid, isActive := true, addedAt := now }
            else st.guardians i
          isGuardianMap := fun a => if a = guardianAddress then true else st.isGuardianMap a }

/-- `SocialRecovery.removeGuardian`: marks the guardian inactive; the
config (in particular `totalGuardians`) is not touched. -/
def removeGuardian (st : SocialState) (guardianIndex : Nat) : Except String SocialState :=
  if ¬ (guardianIndex < st.config.totalGuardians) then
    .error "SocialRecovery: invalid guardian index"
  else if ¬ (st.guardians guardianIndex).isActive then
    .error "SocialRecovery: guardian not active"
  else
    let g := st.guardians guardianIndex
    .ok { st with
          guardians := fun i => if i = guardianIndex then { g with isActive := false }
                                else st.guardians i
          isGuardianMap := fun a => if a = g.guardianAddress then false else st.isGuardianMap a }

/-- `SocialRecovery.voteRecovery` for a guardian `sender` (the
`onlyGuardian` modifier is the first check). -/
def voteRecovery (st : SocialState) (proposal : RecoveryProposal)
    (sender now : Nat) (vote : Bool) : Except String RecoveryProposal :=
  if ¬ st.isGuardianMap sender then .error "SocialRecovery: not a guardian"
  else if ¬ proposal.isActive then .error "SocialRecovery: proposal not active"
  else if ¬ (now < proposal.deadline) then .error "SocialRecovery: voting period ended"
  else if proposal.hasVotedMap sender then .error "SocialRecovery: already voted"
  else
    let proposal1 :=
      { proposal with
        hasVotedMap := fun a => if a = sender then true else proposal.hasVotedMap a
        voteChoice := fun a => if a = sender then vote else proposal.voteChoice a }
    if vote then .ok { proposal1 with votesFor := proposal1.votesFor + 1 }
    else .ok { proposal1 with votesAgainst := proposal1.votesAgainst + 1 }

/-- `SocialRecovery.executeRecovery`: requires active proposal, expired
timelock, no prior execution and quorum, then marks it executed and
inactive. -/
def executeRecovery (cfg : SocialConfig) (proposal : RecoveryProposal) (now : Nat) :
    Except String RecoveryProposal :=
  if ¬ proposal.isActive then .error "SocialRecovery: proposal not active"
  else if now < proposal.deadline then .error "SocialRecovery: recovery delay not met"
  else if proposal.isExecuted then .error "SocialRecovery: already executed"
  else if proposal.votesFor < cfg.requiredApprovals then .error "SocialRecovery: insufficient votes"
  else .ok { proposal with isExecuted := true, isActive := false }

/-- EVM semantics of calling `executeRecovery`: a revert leaves the stored
proposal unchanged, a success stores the returned proposal. -/
def applyExecute (cfg : SocialConfig) (proposal : RecoveryProposal) (now : Nat) :
    RecoveryProposal :=
  match executeRecovery cfg proposal now with
  | .ok p => p
  | .error _ => proposal

/-- `SocialRecovery.rejectRecovery`: rejection is allowed when a majority
of `totalGuardians` voted against, or the deadline passed short of
quorum. -/
def rejectRecovery (cfg : SocialConfig) (proposal : RecoveryProposal) (now : Nat) :
    Except String RecoveryProposal :=
  if ¬ proposal.isActive then .error "SocialRecovery: proposal not active"
  else if cfg.totalGuardians / 2 < proposal.votesAgainst ∨
          (proposal.deadline ≤ now ∧ proposal.votesFor < cfg.requiredApprovals) then
    .ok { proposal with isActive := false }
  else .error "SocialRecovery: cannot reject proposal"

/-- `StorageProvider` interface of the `useKeyVaultStorage` hook.
`reputation` is a JS number holding small integers (0–100 per the spec),
where double arithmetic is exact, so it is an `Int`; `storagePrice` is a
`bigint`, exact by definition, so `Option Int` — only the comparator's
`Number(...)` conversion below is lossy. -/
structure StorageProvider where
  id : Nat
  address : String
  name : String
  reputation : Int
  dealCount : Nat
  isActive : Bool
  registeredAt : Nat
  location : Option String
  storagePrice : Option Int
deriving DecidableEq, Repr

/-- Floor of the base-2 logarithm, by structural fuel (`n` halvings always
suffice), so that it reduces definitionally on literals. -/
def natLog2F : Nat → Nat → Nat
  | 0, _ => 0
  | fuel + 1, n => if n < 2 then 0 else natLog2F fuel (n / 2) + 1

/-- See `natLog2F`. -/
def natLog2 (n : Nat) : Nat := natLog2F n n

/-- Round a natural number to 53 significand bits (round to nearest, ties
to even, exponent unbounded) — the mantissa-rounding step of converting an
integer to an IEEE-754 double. Below `2^53` every integer is exact. -/
def roundNat53 (a : Nat) : Nat :=
  if a < 2 ^ 53 then a
  else
    let shift := natLog2 a - 52
    let q := a / 2 ^ shift
    let r := a % 2 ^ shift
    let half := 2 ^ (shift - 1)
    let q2 := if half < r ∨ (r = half ∧ q % 2 = 1) then q + 1 else q
    q2 * 2 ^ shift

/-- A JS number as far as the provider comparator is concerned: a finite
double that is an integer (the only finite doubles `Number(bigint)`
produces), or an infinity. -/
inductive JsNum where
  | finite : Int → JsNum
  | posInf : JsNum
  | negInf : JsNum

/-- ECMAScript `Number(bigint)`: the integer rounded to the nearest
double with ties to even; a magnitude reaching `2^1024` after rounding
overflows to the signed infinity. -/
def jsNumberOfBigInt (n : Int) : JsNum :=
  let m := roundNat53 n.natAbs
  if 2 ^ 1024 ≤ m then (if 0 ≤ n then .posInf else .negInf)
  else if 0 ≤ n then .finite (m : Int) else .finite (-(m : Int))

/-- A comparator return value as `Array.prototype.sort` consumes it: a
number of which only the sign matters, or NaN. -/
inductive JsCmp where
  | num : Int → JsCmp
  | nan : JsCmp

/-- The double subtraction `x - y` performed by the comparator, reduced to
what the sort consumes. For finite doubles the exact difference is used:
IEEE subtraction rounds the exact difference, which preserves its sign and
is zero exactly when the operands are equal, so the sign (all the sort
looks at) is faithful. Same-signed infinities subtract to NaN; otherwise
an infinite operand fixes the sign. -/
def jsSub : JsNum → JsNum → JsCmp
  | .finite u, .finite v => .num (u - v)
  | .posInf, .posInf => .nan
  | .negInf, .negInf => .nan
  | .posInf, _ => .num 1
  | .negInf, _ => .num (-1)
  | .finite _, .posInf => .num (-1)
  | .finite _, .negInf => .num 1

/-- The sort comparator of `selectOptimalProviders`: reputation
descending, then `Number(storagePrice || 0n) - Number(storagePrice || 0n)`
ascending. `0n` is falsy and `Number(0n) = 0`, so `getD 0` covers both the
absent and the zero price; prices compare as doubles, so differences
beyond 53-bit precision vanish and same-signed infinite conversions give
NaN. -/
def providerCmp (a b : StorageProvider) : JsCmp :=
  let reputationDiff := b.reputation - a.reputation
  if reputationDiff ≠ 0 then .num reputationDiff
  else jsSub (jsNumberOfBigInt (a.storagePrice.getD 0))
             (jsNumberOfBigInt (b.storagePrice.getD 0))

/-- Whether a comparator value lets `a` stay no later than `b` under ES
`CompareArrayElements`: nonpositive, or NaN (which the spec coerces to
`+0`, a tie). -/
def jsCmpLe : JsCmp → Prop
  | .num v => v ≤ 0
  | .nan => True

instance : DecidablePred jsCmpLe := fun c =>
  match c with
  | .num v => inferInstanceAs (Decidable (v ≤ 0))
  | .nan => Decidable.isTrue trivial

/-- The non-strict order induced by the comparator; JS `Array.sort` with
this (consistent, once NaN is read as a tie) comparator produces a list
sorted by this relation, stably. -/
def providerLe (a b : StorageProvider) : Prop := jsCmpLe (providerCmp a b)

instance : DecidableRel providerLe := fun a b => by
  unfold providerLe; infer_instance

instance : IsTotal StorageProvider providerLe :=
  ⟨by
    intro a b
    unfold providerLe providerCmp
    dsimp only
    by_cases h1 : b.reputation - a.reputation = 0
    · rw [if_neg (fun hh => hh h1), if_neg (fun hh => hh (by omega))]
      cases jsNumberOfBigInt (a.storagePrice.getD 0) <;>
        cases jsNumberOfBigInt (b.storagePrice.getD 0) <;>
          simp [jsSub, jsCmpLe] <;> omega
    · rw [if_pos h1, if_pos (fun hh => h1 (by omega))]
      simp only [jsCmpLe]
      omega⟩

instance : IsTrans StorageProvider providerLe :=
  ⟨by
    intro a b c hab hbc
    unfold providerLe providerCmp at hab hbc ⊢
    dsimp only at hab hbc ⊢
    by_cases h1 : b.reputation - a.reputation = 0 <;>
      by_cases h2 : c.reputation - b.reputation = 0
    · rw [if_neg (fun hh => hh h1)] at hab
      rw [if_neg (fun hh => hh h2)] at hbc
      rw [if_neg (fun hh => hh (by omega))]
      revert hab hbc
      cases jsNumberOfBigInt (a.storagePrice.getD 0) <;>
        cases jsNumberOfBigInt (b.storagePrice.getD 0) <;>
          cases jsNumberOfBigInt (c.storagePrice.getD 0) <;>
            intro hab hbc <;> simp_all [jsSub, jsCmpLe] <;> omega
    · rw [if_pos h2] at hbc
      simp only [jsCmpLe] at hbc
      rw [if_pos (fun hh => h2 (by omega))]
      simp only [jsCmpLe]
      omega
    · rw [if_pos h1] at hab
      simp only [jsCmpLe] at hab
      rw [if_pos (fun hh => h1 (by omega))]
      simp only [jsCmpLe]
      omega
    · rw [if_pos h1] at hab
      rw [if_pos h2] at hbc
      simp only [jsCmpLe] at hab hbc
      rw [if_pos (fun hh => h1 (by omega))]
      simp only [jsCmpLe]
      omega⟩

/-- `selectOptimalProviders`: filter to active non-excluded providers,
fail when fewer than `count` remain, else stable-sort by `providerCmp` and
take the first `count`. `List.insertionSort` is a stable sort, matching the
ES2019 `Array.prototype.sort` guarantee. -/
def selectOptimalProviders (providers : List StorageProvider)
    (excludeProviders : List String) (count : Nat) :
    Except String (List StorageProvider) :=
  let availableProviders := providers.filter
    (fun p => p.isActive && !(excludeProviders.contains p.address))
  if availableProviders.length < count then
    .error "insufficient providers available"
  else
    .ok ((availableProviders.insertionSort providerLe).take count)

/-- Result of `storeWithRedundancyMutation`: the replica deals (here the
provider paired with the CID its upload returned) and the reported
`redundancyMet` flag. -/
structure DistributedStorage where
  replicas : List (StorageProvider × String)
  redundancyMet : Bool
deriving DecidableEq, Repr

/-- The `deals` array accumulated by the provider loop of
`storeWithRedundancyMutation`: one entry per provider whose upload
succeeded, in provider order; failed providers contribute nothing but do
not stop the loop. -/
def dealsOf (providers : List StorageProvider)
    (upload : StorageProvider → Option String) : List (StorageProvider × String) :=
  providers.filterMap (fun p => (upload p).map (fun cid => (p, cid)))

/-- Core of `storeWithRedundancyMutation.mutationFn` after provider
selection: each provider's upload is attempted inside its own
`try`/`catch` (`upload p = none` models a failed upload, including a
missing piece CID), so one failure never aborts the rest; a deal is
recorded per success, and only after all attempts is the success count
compared with `minReplicas`. -/
def storeWithRedundancy (providers : List StorageProvider)
    (upload : StorageProvider → Option String) (minReplicas : Nat) :
    Except String DistributedStorage :=
  let deals := dealsOf providers upload
  if deals.length < minReplicas then
    .error "Failed to meet minimum redundancy"
  else
    .ok { replicas := deals, redundancyMet := decide (minReplicas ≤ deals.length) }

/-- Whether an `Except` value is a success. -/
def isOkE {ε α : Type _} (e : Except ε α) : Bool :=
  match e with
  | .ok _ => true
  | .error _ => false

/- Concrete fixtures used by witnesses and counterexamples. -/

/-- A hash oracle for `submitShare` tests (`keccak256` collapsed to 0). -/
def testHash : List Nat → Nat := fun _ => 0

/-- A `shares` mapping with exactly share index 1 active, hash 0. -/
def testShares : Nat → ShareInfo := fun i =>
  { shareIndex := i, storageCid := "cid", storageProvider := 1,
    shareHash := 0, timestamp := 0, isActive := i == 1 }

/-- A fresh recovery attempt requiring 2 shares, deadline 100. -/
def attempt0 : RecoveryAttempt :=
  { initiator := 5, submittedShares := 0, requiredShares := 2,
    deadline := 100, isComplete := false, submittedShareData := fun _ => [] }

/-- A social config requiring 2 approvals out of 3 guardians. -/
def cfg0 : SocialConfig :=
  { requiredApprovals := 2, totalGuardians := 3, recoveryDelay := 3600, isInitialized := true }

/-- An active proposal with 3 votes for, deadline 10. -/
def prop0 : RecoveryProposal :=
  { proposer := 1, newOwner := 2, votesFor := 3, votesAgainst := 0, deadline := 10,
    isExecuted := false, isActive := true,
    hasVotedMap := fun _ => false, voteChoice := fun _ => false }

/-- An active proposal with a 2-vote majority against. -/
def propR : RecoveryProposal :=
  { prop0 with votesFor := 1, votesAgainst := 2 }

/-- Equal-reputation providers whose bigint prices differ by one unit just
above `2^53`, where `Number` collapses them to the same double. -/
def hiP : StorageProvider :=
  { id := 3, address := "c", name := "C", reputation := 90, dealCount := 0,
    isActive := true, registeredAt := 0, location := none,
    storagePrice := some (Int.ofNat (2 ^ 53 + 1)) }

/-- See `hiP`. -/
def loP : StorageProvider :=
  { id := 4, address := "d", name := "D", reputation := 90, dealCount := 0,
    isActive := true, registeredAt := 0, location := none,
    storagePrice := some (Int.ofNat (2 ^ 53)) }

/-- Providers that tie on reputation and price but differ in address. -/
def tieA : StorageProvider :=
  { id := 1, address := "a", name := "A", reputation := 90, dealCount := 0,
    isActive := true, registeredAt := 0, location := none, storagePrice := some 100 }

/-- See `tieA`. -/
def tieB : StorageProvider :=
  { id := 2, address := "b", name := "B", reputation := 90, dealCount := 0,
    isActive := true, registeredAt := 0, location := none, storagePrice := some 100 }

/-- A provider with the given id and reputation, everything else fixed. -/
def mkProv (i : Nat) (rep : Int) : StorageProvider :=
  { id := i, address := toString i, name := toString i, reputation := rep, dealCount := 0,
    isActive := true, registeredAt := 0, location := none, storagePrice := some 100 }

/-- Four active providers (the redundancy scenario of the spec). -/
def provs4 : List StorageProvider :=
  [mkProv 1 95, mkProv 2 88, mkProv 3 92, mkProv 4 87]

/-- An upload oracle where exactly provider 2's upload fails. -/
def upload0 : StorageProvider → Option String :=
  fun p => if p.id == 2 then none else some "cid"

/-- A configured social-recovery state with no guardians yet. -/
def socialSt0 : SocialState :=
  { config := { requiredApprovals := 2, totalGuardians := 0, recoveryDelay := 3600, isInitialized := true }
    guardians := fun _ => { guardianAddress := 0, encryptedShare := "", storageCid := "",
                            isActive := false, addedAt := 0 }
    isGuardianMap := fun _ => false }

/-- `socialSt0` after `addGuardian` registered address 2 at index 0. -/
def socialSt1 : SocialState :=
  { config := { requiredApprovals := 2, totalGuardians := 1, recoveryDelay := 3600, isInitialized := true }
    guardians := fun i => if i = 0 then
        { guardianAddress := 2, encryptedShare := "es", storageCid := "cid", isActive := true, addedAt := 7 }
      else socialSt0.guardians i
    isGuardianMap := fun a => if a = 2 then true else socialSt0.isGuardianMap a }

/-- `socialSt1` after `removeGuardian 0`: guardian inactive, count kept. -/
def socialSt2 : SocialState :=
  { socialSt1 with
    guardians := fun i => if i = 0 then
        { guardianAddress := 2, encryptedShare := "es", storageCid := "cid", isActive := false, addedAt := 7 }
      else socialSt1.guardians i
    isGuardianMap := fun a => if a = 2 then false else socialSt1.isGuardianMap a }

/-! Theorems. -/

set_option maxRecDepth 100000 in
/-- C1: the split/reconstruct round-trip fails on the code. `splitSecret`
draws a fresh random polynomial for every `(shareIndex, byteIndex)` pair,
so different shares lie on different polynomials. With secret `[1]`,
`M = N = 2` and a randomness oracle whose byte differs between the two
shares (coefficient 0 for share 1, 1 for share 2 — a possible output of
`randomBytes`), reconstruction from both shares returns `[246]`, not the
secret `[1]`. As a control, an oracle that repeats the same coefficient
for both shares (both shares then lie on one polynomial, which a correct
implementation guarantees always) round-trips to `[1]`. -/
theorem splitSecret_reconstruct_roundtrip_fails :
    (splitSecret [1] 2 2 "k" (fun shareIndex _ _ => shareIndex - 1) 0).bind
        reconstructSecret = Except.ok [246] ∧ (246 : Nat) ≠ 1 ∧
    (splitSecret [1] 2 2 "k" (fun _ _ _ => 1) 0).bind
        reconstructSecret = Except.ok [1] :=
  ⟨rfl, by decide, rfl⟩

/-- C2: `submitShare` increments `submittedShares` even when the submitted
index was already submitted. Re-submitting share index 1 to a session with
`requiredShares = 2` overwrites the payload but double-counts: the session
becomes complete with only one distinct submitted index (index 2 was never
submitted). After the first call the session is still open with count 1. -/
theorem submitShare_double_counts_duplicate_index :
    ((submitShare testHash testShares attempt0 0 1 [7]).bind
        (fun a => submitShare testHash testShares a 0 1 [7])).map
          (fun a => (a.isComplete, a.submittedShares, a.submittedShareData 1,
                     a.submittedShareData 2))
      = Except.ok (true, 2, [7], []) ∧
    (submitShare testHash testShares attempt0 0 1 [7]).map
        (fun a => (a.isComplete, a.submittedShares))
      = Except.ok (false, 1) :=
  ⟨rfl, rfl⟩

/-- C5 counterexample: `configureShamir` accepts `threshold = 1` (its check
is `threshold > 0`), so Shamir-configuration creation does not require
`2 ≤ M`. -/
theorem configureShamir_accepts_threshold_one :
    configureShamir { threshold := 0, totalShares := 0, createdAt := 0, isInitialized := false }
        1 2 0
      = Except.ok { threshold := 1, totalShares := 2, createdAt := 0, isInitialized := true } :=
  rfl

/-- C5 (amended): `splitSecret` succeeds exactly when
`2 ≤ M ≤ N ≤ 255` and the secret is non-empty; `configureShamir` succeeds
exactly when `1 ≤ M ≤ N`, `2 ≤ N ≤ 255` and the owner is not already
configured (so it also accepts `M = 1`). Failures return an error and no
shares/configuration. -/
theorem shamir_parameter_validation :
    ∀ (secret : List Nat) (threshold totalShares : Nat) (keyId : String)
      (rand : Nat → Nat → Nat → Nat) (ts : Nat) (existing : ShamirConfigC) (now : Nat),
    (isOkE (splitSecret secret threshold totalShares keyId rand ts) = true ↔
      2 ≤ threshold ∧ threshold ≤ totalShares ∧ totalShares ≤ 255 ∧ secret ≠ []) ∧
    (isOkE (configureShamir existing threshold totalShares now) = true ↔
      1 ≤ threshold ∧ threshold ≤ totalShares ∧ 2 ≤ totalShares ∧ totalShares ≤ 255 ∧
        existing.isInitialized = false) := by
  intro secret threshold totalShares keyId rand ts existing now
  constructor
  · unfold splitSecret
    split_ifs with h1 h2 h3 <;>
      simp only [isOkE, List.length_eq_zero] at * <;>
      constructor <;> intro h <;> simp_all <;> omega
  · unfold configureShamir
    split_ifs with h1 h2 h3 <;>
      simp only [isOkE] at * <;>
      constructor <;> intro h <;> simp_all <;> omega

/-- C6 counterexample: `GF256.divide` checks `a === 0` before `b === 0`,
so dividing 0 by 0 returns 0 instead of failing. -/
theorem divide_zero_by_zero_ok : GF256.divide 0 0 = Except.ok 0 := rfl

/-- C6 (amended): division by zero fails with the division-by-zero error
for every nonzero dividend; for dividend 0 the zero-check short-circuits
and 0 is returned. -/
theorem divide_by_zero_error :
    ∀ a : Nat, a ≠ 0 → GF256.divide a 0 = Except.error "Division by zero in GF(256)" := by
  intro a h
  unfold GF256.divide
  rw [if_neg h]
  rfl

/-- Witness for `divide_by_zero_error` at `a = 7`. -/
theorem divide_by_zero_error_witness :
    GF256.divide 7 0 = Except.error "Division by zero in GF(256)" :=
  divide_by_zero_error 7 (by decide)

/-- The structural fuel of `mpAux` is irrelevant as long as it dominates
`b`: the embedding with fuel `b` computes the JS loop exactly. -/
theorem mpAux_fuel :
    ∀ (f1 f2 a b result : Nat), b ≤ f1 → b ≤ f2 →
      mpAux f1 a b result = mpAux f2 a b result := by
  intro f1
  induction f1 with
  | zero =>
    intro f2 a b result hb1 _
    interval_cases b
    cases f2 <;> simp [mpAux]
  | succ f1 ih =>
    intro f2 a b result hb1 hb2
    match f2, hb2 with
    | 0, hb2 =>
      interval_cases b
      simp [mpAux]
    | f2 + 1, hb2 =>
      by_cases hb : b = 0
      · subst hb; simp [mpAux]
      · simp only [mpAux, if_neg hb]
        exact ih _ _ _ _ (by omega) (by omega)

/-- C3: the timelock cannot be bypassed. `executeRecovery` fails while
`now < deadline` no matter the vote count; success implies both
`deadline ≤ now` and quorum; and on an active, unexecuted proposal with
the deadline passed and quorum reached, it succeeds. -/
theorem executeRecovery_timelock :
    ∀ (cfg : SocialConfig) (p : RecoveryProposal) (now : Nat),
    (now < p.deadline → isOkE (executeRecovery cfg p now) = false) ∧
    (isOkE (executeRecovery cfg p now) = true →
       p.deadline ≤ now ∧ cfg.requiredApprovals ≤ p.votesFor) ∧
    (p.isActive = true → p.isExecuted = false → p.deadline ≤ now →
       cfg.requiredApprovals ≤ p.votesFor → isOkE (executeRecovery cfg p now) = true) := by
  intro cfg p now
  unfold executeRecovery
  refine ⟨?_, ?_, ?_⟩ <;> split_ifs <;> simp_all [isOkE] <;> omega

/-- Witness for `executeRecovery_timelock`: with quorum reached (3 ≥ 2),
execution fails at `now = 5 < deadline = 10` and succeeds at `now = 10`. -/
theorem executeRecovery_timelock_witness :
    isOkE (executeRecovery cfg0 prop0 10) = true ∧
    isOkE (executeRecovery cfg0 prop0 5) = false :=
  ⟨(executeRecovery_timelock cfg0 prop0 10).2.2 rfl rfl (by decide) (by decide),
   (executeRecovery_timelock cfg0 prop0 5).1 (by decide)⟩

/-- C4: a successfully executed proposal is marked executed and inactive,
so a second `executeRecovery` call reverts on the active-proposal check (a
state error) and, by revert semantics, leaves the stored proposal
unchanged; execution therefore succeeds at most once per proposal. -/
theorem executeRecovery_no_double_execution :
    ∀ (cfg : SocialConfig) (p : RecoveryProposal) (now : Nat) (q : RecoveryProposal)
      (cfg2 : SocialConfig) (now2 : Nat),
    executeRecovery cfg p now = Except.ok q →
    executeRecovery cfg2 q now2 = Except.error "SocialRecovery: proposal not active" ∧
    applyExecute cfg2 q now2 = q ∧ q.isExecuted = true ∧ q.isActive = false := by
  intro cfg p now q cfg2 now2 h
  unfold executeRecovery at h
  split_ifs at h <;> simp only [Except.ok.injEq] at h
  subst h
  refine ⟨by simp [executeRecovery], by simp [applyExecute, executeRecovery], rfl, rfl⟩

/-- Witness for `executeRecovery_no_double_execution`: executing `prop0`
at `now = 10` succeeds; calling again at `now = 20` fails with the
state error. -/
theorem executeRecovery_no_double_execution_witness :
    executeRecovery cfg0 { prop0 with isExecuted := true, isActive := false } 20
      = Except.error "SocialRecovery: proposal not active" :=
  (executeRecovery_no_double_execution cfg0 prop0 10
    { prop0 with isExecuted := true, isActive := false } cfg0 20 rfl).1

/-- C10: `totalGuardians` counts every guardian ever added: `addGuardian`
increments it by one, `removeGuardian` only deactivates the guardian and
leaves the config (hence `totalGuardians`) unchanged, configuration starts
it at zero (and only fires on an unconfigured owner), and `rejectRecovery`
compares `votesAgainst` against `totalGuardians / 2` — the ever-added
count, not the active-guardian count. -/
theorem totalGuardians_ever_added :
    ∀ (st : SocialState) (owner gaddr : Nat) (es cid : String) (now gi ra rd : Nat)
      (cfg : SocialConfig) (p : RecoveryProposal),
    (∀ st1, addGuardian st owner gaddr es cid now = Except.ok st1 →
       st1.config.totalGuardians = st.config.totalGuardians + 1) ∧
    (∀ st2, removeGuardian st gi = Except.ok st2 →
       st2.config = st.config ∧ (st2.guardians gi).isActive = false) ∧
    (∀ st3, configureSocialRecovery st ra rd = Except.ok st3 →
       st3.config.totalGuardians = 0 ∧ st.config.isInitialized = false) ∧
    (isOkE (rejectRecovery cfg p now) = true ↔
       p.isActive = true ∧ (cfg.totalGuardians / 2 < p.votesAgainst ∨
         (p.deadline ≤ now ∧ p.votesFor < cfg.requiredApprovals))) := by
  intro st owner gaddr es cid now gi ra rd cfg p
  refine ⟨?_, ?_, ?_, ?_⟩
  · intro st1 h
    unfold addGuardian at h
    split_ifs at h <;> simp only [Except.ok.injEq] at h
    subst h
    rfl
  · intro st2 h
    unfold removeGuardian at h
    split_ifs at h <;> simp only [Except.ok.injEq] at h
    subst h
    exact ⟨rfl, by simp⟩
  · intro st3 h
    unfold configureSocialRecovery at h
    split_ifs at h with h1 h2 h3 <;> simp only [Except.ok.injEq] at h
    subst h
    exact ⟨rfl, by simpa using h3⟩
  · unfold rejectRecovery
    split_ifs <;> simp_all [isOkE]

/-- Witness for `totalGuardians_ever_added`: adding guardian 2 to the
fresh configured state raises the count 0 → 1; removing that guardian
keeps the config (count still 1) while deactivating the guardian; and a
2-against majority over 3 ever-added guardians lets `rejectRecovery`
succeed. -/
theorem totalGuardians_ever_added_witness :
    socialSt1.config.totalGuardians = socialSt0.config.totalGuardians + 1 ∧
    (socialSt2.config = socialSt1.config ∧ (socialSt2.guardians 0).isActive = false) ∧
    isOkE (rejectRecovery cfg0 propR 0) = true :=
  ⟨(totalGuardians_ever_added socialSt0 1 2 "es" "cid" 7 0 0 0 cfg0 propR).1 socialSt1 rfl,
   (totalGuardians_ever_added socialSt1 1 2 "es" "cid" 7 0 0 0 cfg0 propR).2.1 socialSt2 rfl,
   (totalGuardians_ever_added socialSt1 1 2 "es" "cid" 7 0 0 0 cfg0 propR).2.2.2.mpr
     ⟨rfl, Or.inl (by decide)⟩⟩

/-- C8: redundant distribution attempts every provider — a provider whose
upload succeeds contributes its deal no matter how many other providers
fail — and the aggregate succeeds exactly when the success count reaches
`minReplicas`, in which case the reported replica list is the full deal
list and `redundancyMet` is `true`. -/
theorem storeWithRedundancy_spec :
    ∀ (providers : List StorageProvider) (upload : StorageProvider → Option String)
      (minReplicas : Nat),
    (isOkE (storeWithRedundancy providers upload minReplicas) = true ↔
       minReplicas ≤ (dealsOf providers upload).length) ∧
    (∀ p cid, p ∈ providers → upload p = some cid → (p, cid) ∈ dealsOf providers upload) ∧
    (∀ r, storeWithRedundancy providers upload minReplicas = Except.ok r →
       r.redundancyMet = true ∧ r.replicas = dealsOf providers upload) := by
  intro providers upload minReplicas
  refine ⟨?_, ?_, ?_⟩
  · unfold storeWithRedundancy
    dsimp only
    split_ifs with h <;> simp [isOkE] <;> omega
  · intro p cid hp hcid
    unfold dealsOf
    exact List.mem_filterMap.mpr ⟨p, hp, by simp [hcid]⟩
  · intro r h
    unfold storeWithRedundancy at h
    dsimp only at h
    split_ifs at h with hlt <;> simp only [Except.ok.injEq] at h
    subst h
    exact ⟨by simp; omega, rfl⟩

/-- Witness for `storeWithRedundancy_spec`, the spec's redundancy
scenario: four active providers, provider 2's upload fails, three deals
remain, so distribution with `minReplicas = 3` succeeds and provider 4's
deal is present despite the earlier failure. -/
theorem storeWithRedundancy_spec_witness :
    isOkE (storeWithRedundancy provs4 upload0 3) = true ∧
    (mkProv 4 87, "cid") ∈ dealsOf provs4 upload0 :=
  ⟨(storeWithRedundancy_spec provs4 upload0 3).1.mpr (by decide),
   (storeWithRedundancy_spec provs4 upload0 3).2.1 (mkProv 4 87) "cid" (by decide) rfl⟩

set_option maxRecDepth 100000 in
/-- C9 counterexample, two parts. First: the sort comparator of
`selectOptimalProviders` compares reputation then price only — there is
no address tie-break. Providers `tieB` and `tieA` tie on both keys but
have distinct addresses; the same provider set passed in two different
input orders is returned in the two different (stable-sort, input)
orders, which an address tie-break would forbid. Second: the price key is
compared after `Number(bigint)` double conversion, so the equal-reputation
providers `hiP` (price `2^53 + 1`) and `loP` (price `2^53`) tie — both
prices convert to the double `2^53` — and come back in input order,
descending in exact price, not ascending. -/
theorem selectOptimalProviders_no_address_tiebreak :
    selectOptimalProviders [tieB, tieA] [] 2 = Except.ok [tieB, tieA] ∧
    selectOptimalProviders [tieA, tieB] [] 2 = Except.ok [tieA, tieB] ∧
    tieA.address ≠ tieB.address ∧
    tieB.reputation = tieA.reputation ∧ tieB.storagePrice = tieA.storagePrice ∧
    selectOptimalProviders [hiP, loP] [] 2 = Except.ok [hiP, loP] ∧
    hiP.reputation = loP.reputation ∧
    loP.storagePrice.getD 0 < hiP.storagePrice.getD 0 := by
  exact ⟨rfl, rfl, by decide, rfl, rfl, rfl, rfl, by decide⟩

/-- C9 (amended): `selectOptimalProviders` filters to active non-excluded
providers, fails exactly when fewer than `count` remain, and otherwise
returns `count` active non-excluded providers sorted by the comparator
order `providerLe`: descending reputation, then ascending price *as
compared on `Number(bigint)` doubles* — price differences that vanish at
53-bit double precision, and NaN comparisons between same-signed infinite
conversions, are ties — with all ties kept in input order (stable sort)
and no address tie-break; as a pure function of the input list (including
its order) it is deterministic on identical inputs. -/
theorem selectOptimalProviders_spec :
    ∀ (providers : List StorageProvider) (exclude : List String) (count : Nat),
    (isOkE (selectOptimalProviders providers exclude count) = true ↔
       count ≤ (providers.filter
         (fun p => p.isActive && !(exclude.contains p.address))).length) ∧
    (∀ res, selectOptimalProviders providers exclude count = Except.ok res →
       res.length = count ∧
       (∀ p, p ∈ res → p.isActive = true ∧ exclude.contains p.address = false) ∧
       res.Pairwise providerLe) := by
  intro providers exclude count
  constructor
  · unfold selectOptimalProviders
    dsimp only
    split_ifs with h <;>
      simp only [isOkE, Bool.false_eq_true, false_iff, eq_self_iff_true, true_iff] <;>
      omega
  · intro res h
    unfold selectOptimalProviders at h
    dsimp only at h
    split_ifs at h with hlt <;> simp only [Except.ok.injEq] at h
    subst h
    refine ⟨?_, ?_, ?_⟩
    · rw [List.length_take, List.length_insertionSort]; omega
    · intro p hp
      have hmem : p ∈ (providers.filter
          (fun p => p.isActive && !(exclude.contains p.address))).insertionSort providerLe :=
        List.mem_of_mem_take hp
      have hfil := (List.perm_insertionSort providerLe _).mem_iff.mp hmem
      have hcond := (List.mem_filter.mp hfil).2
      simp only [Bool.and_eq_true, Bool.not_eq_true'] at hcond
      exact hcond
    · exact List.Pairwise.sublist (List.take_sublist _ _)
        (List.sorted_insertionSort providerLe _)

set_option maxRecDepth 100000 in
/-- Witness for `selectOptimalProviders_spec`: selecting 1 of the two
tying providers returns a singleton that is active, non-excluded and
trivially sorted. -/
theorem selectOptimalProviders_spec_witness :
    ([tieB] : List StorageProvider).length = 1 ∧
    (tieB.isActive = true ∧ ([] : List String).contains tieB.address = false) ∧
    ([tieB] : List StorageProvider).Pairwise providerLe := by
  have h := (selectOptimalProviders_spec [tieB, tieA] [] 1).2 [tieB] rfl
  exact ⟨h.1, h.2.1 tieB (by simp), h.2.2⟩

end KeyVault
